import Mathlib

/-!
Shallow embedding of the `llm_project` frontend (Next.js + React) in Lean 4.

Source files embedded:
 - `src/frontend/src/lib/api.ts` : the fetch-based API client
   (`login`, `register`, `uploadImage`, `getStructured`, response helper `j`,
   the `StructuredRequest` / `StructuredResponse` types).
 - `src/frontend/src/app/page.tsx` : the main page component
   (field-array editing, `onSubmit`, `onUploadImage`, `logout`, mount redirect,
   the from-cache label).
 - `src/frontend/src/app/register/page.tsx` and `src/unnamed/part_001`
   (register pages), `src/unnamed/part_002` (combined login/register page),
   `src/unnamed/part_003` (login page).

Modelling conventions:
 - JavaScript values parsed from JSON bodies are modelled by the inductive
   `Json` (JSON has no `undefined`, so `null` is the only bottom value;
   a missing property access is modelled by `Option`).
 - JS `number` is modelled by `Int`; no claim depends on float arithmetic
   (the values are only carried and displayed).
 - React state updates are modelled by pure state-transition functions;
   the network is an oracle argument (`Except String α` standing for the
   settled promise of the corresponding API call).
 - `localStorage` is modelled by an association list `List (String × String)`.
-/

/-! ## JSON values -/

/-- A parsed JSON value (result of `res.json()`). -/
inductive Json where
  | null : Json
  | bool (b : Bool) : Json
  | num (n : Int) : Json
  | str (s : String) : Json
  | arr (elems : List Json) : Json
  | obj (fields : List (String × Json)) : Json

/-- Lookup of a key in a JSON object's field list (first occurrence wins,
as in a parsed JS object where the last duplicate wins at parse time;
the field list is taken post-parse, duplicates already resolved). -/
def lookupStr : List (String × Json) → String → Option Json
  | [], _ => none
  | (k, v) :: rest, key => if k = key then some v else lookupStr rest key

/-- JS property access `v.key` on a parsed JSON value: `some` when the value
is an object carrying the key, `none` standing for `undefined` otherwise. -/
def getField : Json → String → Option Json
  | .obj kvs, key => lookupStr kvs key
  | _, _ => none

/-- JS truthiness of a parsed JSON value (`null`, `false`, `0`, `""` are
falsy; arrays and objects, even empty ones, are truthy). -/
def truthy : Json → Bool
  | .null => false
  | .bool b => b
  | .num n => n ≠ 0
  | .str s => s ≠ ""
  | .arr _ => true
  | .obj _ => true

/-- JS `String.prototype.trim()`: strip leading and trailing whitespace,
defined by structural recursion over the character list so that concrete
instances evaluate. -/
def jsTrim (s : String) : String :=
  String.mk (((s.data.dropWhile Char.isWhitespace).reverse.dropWhile
    Char.isWhitespace).reverse)

mutual

/-- JS `String(v)` coercion of a parsed JSON value, as performed by
`new Error(msg)` on a non-string argument. Arrays join their elements with
commas (`null` elements render empty), objects render "[object Object]". -/
def jsString : Json → String
  | .null => "null"
  | .bool b => cond b "true" "false"
  | .num n => toString n
  | .str s => s
  | .obj _ => "[object Object]"
  | .arr l => jsStringArr l

/-- Comma-join of array elements under JS `String` coercion; a `null`
element contributes the empty string. -/
def jsStringArr : List Json → String
  | [] => ""
  | [x] => match x with
    | .null => ""
    | x => jsString x
  | x :: xs =>
    (match x with
      | .null => ""
      | x => jsString x) ++ "," ++ jsStringArr xs

end

/-! ## Data types of `src/frontend/src/lib/api.ts` -/

/-- `type FieldType = "string" | "number"` -/
inductive FieldType where
  | string : FieldType
  | number : FieldType
deriving DecidableEq, Repr

/-- `export type OutputField = { name: string; type: FieldType }` -/
structure OutputField where
  name : String
  type : FieldType
deriving DecidableEq, Repr

/-- `export type StructuredRequest = { prompt, fields, image_id }` -/
structure StructuredRequest where
  prompt : String
  fields : List OutputField
  image_id : Option Int
deriving DecidableEq, Repr

/-- One value of the `Record<string, string | number | null>` carried by
`StructuredResponse.data`. -/
inductive DataValue where
  | str (s : String) : DataValue
  | num (n : Int) : DataValue
  | null : DataValue
deriving DecidableEq, Repr

/-- `export type StructuredResponse = { data, from_cache }` -/
structure StructuredResponse where
  data : List (String × DataValue)
  from_cache : Bool
deriving DecidableEq, Repr

/-! ## The HTTP client of `src/frontend/src/lib/api.ts`

Each exported function performs one `fetch`; we reify the request it builds
as an `HttpRequest` value. The backend base URL
`B = process.env.NEXT_PUBLIC_BACKEND_URL || "http://localhost:8000"` is
modelled by `backendB` applied to the (optional) environment variable. -/

/-- The only HTTP method used by the client. -/
inductive Method where
  | POST : Method
deriving DecidableEq, Repr

/-- The body a client request carries: url-encoded parameters, a JSON value
(the argument of `JSON.stringify`), or multipart form data holding one file
under a named form field. -/
inductive ReqBody where
  | urlencoded (params : List (String × String)) : ReqBody
  | jsonBody (v : Json) : ReqBody
  | multipart (formField : String) (fileName : String) : ReqBody

/-- A reified `fetch` request: method, full URL, the `Content-Type` header
when set explicitly, the `Authorization` header when set, and the body. -/
structure HttpRequest where
  method : Method
  url : String
  contentType : Option String
  auth : Option String
  body : ReqBody

/-- `const B = process.env.NEXT_PUBLIC_BACKEND_URL || "http://localhost:8000"`
(`||` falls through on a missing or empty environment variable). -/
def backendB (env : Option String) : String :=
  match env with
  | some s => if s = "" then "http://localhost:8000" else s
  | none => "http://localhost:8000"

/-- JSON encoding of a `FieldType` (`"string"` / `"number"`). -/
def encodeFieldType : FieldType → String
  | .string => "string"
  | .number => "number"

/-- JSON encoding of an `OutputField`. -/
def encodeOutputField (f : OutputField) : Json :=
  .obj [("name", .str f.name), ("type", .str (encodeFieldType f.type))]

/-- `JSON.stringify(body)` for a `StructuredRequest`, as a JSON value. -/
def encodeStructuredRequest (r : StructuredRequest) : Json :=
  .obj [("prompt", .str r.prompt),
        ("fields", .arr (r.fields.map encodeOutputField)),
        ("image_id", match r.image_id with
          | some i => .num i
          | none => .null)]

/-- The request built by `login(username, password)`: POST to
`{B}/auth/login` with a url-encoded body of username and password. -/
def login_request (backend username password : String) : HttpRequest :=
  { method := .POST
    url := backend ++ "/auth/login"
    contentType := some "application/x-www-form-urlencoded"
    auth := none
    body := .urlencoded [("username", username), ("password", password)] }

/-- `login` returns `data.access_token` of the parsed response body. -/
def login_extract (data : Json) : Option Json :=
  getField data "access_token"

/-- The request built by `register(username, password, password_confirm)`:
POST to `{B}/auth/register` with a JSON body of the three fields. -/
def register_request (backend username password password_confirm : String) :
    HttpRequest :=
  { method := .POST
    url := backend ++ "/auth/register"
    contentType := some "application/json"
    auth := none
    body := .jsonBody (.obj [("username", .str username),
                             ("password", .str password),
                             ("password_confirm", .str password_confirm)]) }

/-- The request built by `uploadImage(file, token)`: POST to
`{B}/images/upload` with a Bearer token and multipart form data carrying
the file under the form field `"file"`. -/
def uploadImage_request (backend fileName token : String) : HttpRequest :=
  { method := .POST
    url := backend ++ "/images/upload"
    contentType := none
    auth := some ("Bearer " ++ token)
    body := .multipart "file" fileName }

/-- The request built by `getStructured(body, token)`: POST to
`{B}/llm/structured` with a Bearer token and the JSON-serialised
`StructuredRequest`. -/
def getStructured_request (backend : String) (body : StructuredRequest)
    (token : String) : HttpRequest :=
  { method := .POST
    url := backend ++ "/llm/structured"
    contentType := some "application/json"
    auth := some ("Bearer " ++ token)
    body := .jsonBody (encodeStructuredRequest body) }

/-- One invocation of an exported function of `api.ts`; these four functions
are the only places the client calls `fetch`. -/
inductive ClientCall where
  | login (username password : String) : ClientCall
  | register (username password password_confirm : String) : ClientCall
  | uploadImage (fileName token : String) : ClientCall
  | getStructured (body : StructuredRequest) (token : String) : ClientCall

/-- The request a `ClientCall` sends. -/
def requestOf (backend : String) : ClientCall → HttpRequest
  | .login u p => login_request backend u p
  | .register u p pc => register_request backend u p pc
  | .uploadImage f t => uploadImage_request backend f t
  | .getStructured b t => getStructured_request backend b t

/-! ## The response helper `j` of `api.ts` -/

/-- A settled `fetch` response: `ok` and `status` as the `Response` object
reports them, and `body`: `some v` when `res.json()` resolves with `v`,
`none` when the body is absent or unparsable (so `res.json()` rejects). -/
structure HttpResponse where
  status : Nat
  ok : Bool
  body : Option Json

/-- `body.detail[0].msg ?? msg` inside `j`, with the surrounding
`try`/`catch`: an empty array or a `null` first element makes the property
access throw a TypeError which the `catch` swallows (default kept); a
present `msg` that is `null` (or absent) falls back via `??`; any other
`msg` value is coerced by the `Error` constructor. -/
def firstMsg (elems : List Json) (dflt : String) : String :=
  match elems with
  | [] => dflt
  | d :: _ =>
    match d with
    | .null => dflt
    | d =>
      match getField d "msg" with
      | none => dflt
      | some .null => dflt
      | some m => jsString m

/-- The error message `j` throws on a non-ok response: `"HTTP <status>"`
unless the body parses as JSON with a truthy `detail` field, in which case
the detail itself (coerced to a string) or, for an array detail, the first
element's `msg`. -/
def errMsg (status : Nat) (body : Option Json) : String :=
  let dflt := "HTTP " ++ toString status
  match body with
  | none => dflt
  | some b =>
    match getField b "detail" with
    | none => dflt
    | some d =>
      if truthy d then
        match d with
        | .arr l => firstMsg l dflt
        | d => jsString d
      else dflt

/-- How a call of `j` settles: resolving with the parsed body, rejecting
with a thrown `Error` message, or rejecting with the body-parse failure
of `res.json()` on the ok path (which `j` does not catch). -/
inductive JOutcome where
  | success (v : Json) : JOutcome
  | failure (msg : String) : JOutcome
  | parseError : JOutcome

/-- `async function j<T>(res)` of `api.ts`: on a non-ok response it throws
`Error(errMsg ...)`; on an ok response it returns `res.json()` — whose
rejection, when the body does not parse, propagates uncaught. -/
def j (res : HttpResponse) : JOutcome :=
  if res.ok then
    match res.body with
    | some v => .success v
    | none => .parseError
  else .failure (errMsg res.status res.body)

/-! ## Browser local storage

`localStorage` modelled as an association list of key/value pairs. -/

/-- `localStorage.getItem(key)`. -/
def storeGet (store : List (String × String)) (key : String) : Option String :=
  (store.find? (fun kv => kv.1 = key)).map (fun kv => kv.2)

/-- `localStorage.setItem(key, value)`. -/
def storeSet (store : List (String × String)) (key value : String) :
    List (String × String) :=
  (key, value) :: store.filter (fun kv => kv.1 ≠ key)

/-- `localStorage.removeItem(key)`. -/
def storeRemove (store : List (String × String)) (key : String) :
    List (String × String) :=
  store.filter (fun kv => kv.1 ≠ key)

/-! ## The main page `src/frontend/src/app/page.tsx` -/

/-- `type FieldRow = OutputField & { id: number }` — one editable row of the
output-fields array. -/
structure FieldRow where
  id : Nat
  name : String
  type : FieldType
deriving DecidableEq, Repr

/-- A `Partial<FieldRow>` argument of `updateField`: each property is
present or absent. -/
structure FieldPatch where
  id : Option Nat := none
  name : Option String := none
  type : Option FieldType := none
deriving DecidableEq, Repr

/-- The JS object spread `{ ...f, ...patch }`: properties present in the
patch win. -/
def mergePatch (f : FieldRow) (p : FieldPatch) : FieldRow :=
  { id := p.id.getD f.id
    name := p.name.getD f.name
    type := p.type.getD f.type }

/-- `updateField(id, patch)`:
`setFields fs.map (f => f.id === id ? { ...f, ...patch } : f)`. -/
def updateField (fs : List FieldRow) (id : Nat) (patch : FieldPatch) :
    List FieldRow :=
  fs.map (fun f => if f.id = id then mergePatch f patch else f)

/-- `addField()`: `setFields [...fs, { id: Date.now(), name: "", type:
"string" }]`; the fresh id `Date.now()` is the `now` argument. -/
def addField (fs : List FieldRow) (now : Nat) : List FieldRow :=
  fs ++ [{ id := now, name := "", type := FieldType.string }]

/-- `removeField(id)`: `setFields fs.filter(f => f.id !== id)`. -/
def removeField (fs : List FieldRow) (id : Nat) : List FieldRow :=
  fs.filter (fun f => f.id ≠ id)

/-- The `cleanFields` computation of `onSubmit`:
`fields.map(({name, type}) => ({name: name.trim(), type}))
       .filter(f => f.name !== "")`. -/
def cleanFields (fs : List FieldRow) : List OutputField :=
  (fs.map (fun f => OutputField.mk (jsTrim f.name) f.type)).filter
    (fun f => f.name ≠ "")

/-- The React state of `MainPage` that the embedded handlers read or
write. -/
structure MainState where
  token : Option String
  prompt : String
  fields : List FieldRow
  file : Option String
  imageId : Option Int
  imageUrl : Option String
  result : Option (List (String × DataValue))
  fromCache : Bool
  loading : Bool
  uploading : Bool
  error : Option String
deriving Repr

/-- The outcome of one run of `onSubmit`: the state after all `set*` calls
have been applied, the `StructuredRequest` passed to `getStructured` when
one was sent, and the route pushed when navigation happened. -/
structure SubmitOutcome where
  state : MainState
  sent : Option StructuredRequest
  nav : Option String
deriving Repr

/-- `onSubmit` of `MainPage`, with the settled `getStructured` promise as
the oracle `resp` (consulted only when a request is actually sent):
without a token it pushes `/login` and returns; otherwise it clears
`error`/`result`/`fromCache`, sets `loading`, computes `cleanFields`,
throws `"Add at least one field"` when none remain, and otherwise sends
the request, storing `data`/`from_cache` on success and the error message
on failure; `loading` is reset in the `finally` block. -/
def onSubmit (s : MainState) (resp : Except String StructuredResponse) :
    SubmitOutcome :=
  match s.token with
  | none => { state := s, sent := none, nav := some "/login" }
  | some _ =>
    let s1 := { s with error := none, loading := true,
                       result := none, fromCache := false }
    let cf := cleanFields s.fields
    if cf = [] then
      { state := { s1 with error := some "Add at least one field",
                           loading := false }
        sent := none, nav := none }
    else
      let req : StructuredRequest :=
        { prompt := jsTrim s.prompt, fields := cf, image_id := s.imageId }
      match resp with
      | .ok r =>
        { state := { s1 with result := some r.data,
                             fromCache := r.from_cache, loading := false }
          sent := some req, nav := none }
      | .error e =>
        { state := { s1 with error := some e, loading := false }
          sent := some req, nav := none }

/-- `onUploadImage` of `MainPage`, with the settled `uploadImage` promise
as the oracle: a no-op without token or file; otherwise stores the returned
`{id, url}` on success and the error message on failure. -/
def onUploadImage (s : MainState) (resp : Except String (Int × String)) :
    MainState :=
  match s.token, s.file with
  | some _, some _ =>
    let s1 := { s with uploading := true, error := none }
    match resp with
    | .ok iu =>
      { s1 with imageId := some iu.1, imageUrl := some iu.2,
                uploading := false }
    | .error e => { s1 with error := some e, uploading := false }
  | _, _ => s

/-- The cache label rendered next to "Structured response":
`{result && (... {fromCache ? "from cache" : "fresh"})}` — present exactly
while a result is displayed. -/
def cacheLabel (s : MainState) : Option String :=
  match s.result with
  | some _ => some (if s.fromCache then "from cache" else "fresh")
  | none => none

/-- `MainPage` renders only the `"Redirecting to login…"` placeholder
(instead of the form) exactly when the token state is unset:
`if (!token) return <main><p>Redirecting to login…</p></main>`. -/
def rendersPlaceholder (s : MainState) : Bool :=
  s.token.isNone

/-- The mount effect of `MainPage`: read `localStorage.getItem("token")`;
a missing or empty (falsy) value pushes `/login`, otherwise the token is
stored in state. Returns the new token state and the route pushed. -/
def mainMount (store : List (String × String)) :
    Option String × Option String :=
  match storeGet store "token" with
  | none => (none, some "/login")
  | some t => if t = "" then (none, some "/login") else (some t, none)

/-- `logout` of `MainPage`: remove the `"token"` key, clear the token
state, push `/login`. Returns the new store, new state and pushed route. -/
def logout (store : List (String × String)) (s : MainState) :
    List (String × String) × MainState × Option String :=
  (storeRemove store "token", { s with token := none }, some "/login")

/-! ## The login page `src/unnamed/part_003` -/

/-- The outcome of one run of the login page's `onSubmit`: the local
storage after it, the route pushed, the error shown, and the final
`loading` flag. -/
structure LoginOutcome where
  store : List (String × String)
  nav : Option String
  error : Option String
  loading : Bool
deriving Repr

/-- `onSubmit` of the login page, with the settled `login` promise as the
oracle: on a resolved token it checks `if (!token) throw new Error("No
token returned")` (an empty string is falsy), then stores the token under
`"token"` and pushes `/`; a rejection shows the error message. -/
def loginSubmit (store : List (String × String))
    (resp : Except String String) : LoginOutcome :=
  match resp with
  | .error e => { store := store, nav := none, error := some e,
                  loading := false }
  | .ok tok =>
    if tok = "" then
      { store := store, nav := none, error := some "No token returned",
        loading := false }
    else
      { store := storeSet store "token" tok, nav := some "/",
        error := none, loading := false }

/-! ## The register pages
(`src/frontend/src/app/register/page.tsx`, `src/unnamed/part_001`) -/

/-- The outcome of one run of the register page's `onSubmit`: the error
shown, the `(username, password, password_confirm)` triple passed to
`register` when the call was made, the route pushed, and the final
`loading` flag. -/
structure RegisterOutcome where
  error : Option String
  sentRegister : Option (String × String × String)
  nav : Option String
  loading : Bool
deriving DecidableEq, Repr

/-- `onSubmit` of the register pages, with the settled `register` promise
as the oracle (consulted only when the call is made): a mismatch between
password and confirmation throws `"Passwords do not match"` before
`register` is invoked; otherwise `register` is called and success pushes
`/login?registered=1`. -/
def registerSubmit (username password passwordConfirm : String)
    (resp : Except String Unit) : RegisterOutcome :=
  if password ≠ passwordConfirm then
    { error := some "Passwords do not match", sentRegister := none,
      nav := none, loading := false }
  else
    match resp with
    | .ok _ =>
      { error := none,
        sentRegister := some (username, password, passwordConfirm),
        nav := some "/login?registered=1", loading := false }
    | .error e =>
      { error := some e,
        sentRegister := some (username, password, passwordConfirm),
        nav := none, loading := false }

/-! ## The combined login/register page `src/unnamed/part_002` -/

/-- The tab of the combined page. -/
inductive Mode where
  | login : Mode
  | register : Mode
deriving DecidableEq, Repr

/-- The outcome of one run of the combined page's `onSubmit`. -/
structure CombinedOutcome where
  store : List (String × String)
  sentRegister : Option (String × String × String)
  nav : Option String
  error : Option String
  loading : Bool
deriving Repr

/-- `onSubmit` of the combined page: in register mode a password mismatch
throws before `register` is invoked; otherwise (after a successful
`register` in register mode) it runs `login`, rejects an empty (falsy)
token, stores the token under `"token"` and pushes `/`. -/
def loginPageSubmit (mode : Mode) (username password passwordConfirm : String)
    (store : List (String × String)) (regResp : Except String Unit)
    (loginResp : Except String String) : CombinedOutcome :=
  match mode with
  | .register =>
    if password ≠ passwordConfirm then
      { store := store, sentRegister := none, nav := none,
        error := some "Passwords do not match", loading := false }
    else
      match regResp with
      | .error e =>
        { store := store,
          sentRegister := some (username, password, passwordConfirm),
          nav := none, error := some e, loading := false }
      | .ok _ =>
        match loginResp with
        | .error e =>
          { store := store,
            sentRegister := some (username, password, passwordConfirm),
            nav := none, error := some e, loading := false }
        | .ok tok =>
          if tok = "" then
            { store := store,
              sentRegister := some (username, password, passwordConfirm),
              nav := none, error := some "No token returned",
              loading := false }
          else
            { store := storeSet store "token" tok,
              sentRegister := some (username, password, passwordConfirm),
              nav := some "/", error := none, loading := false }
  | .login =>
    match loginResp with
    | .error e =>
      { store := store, sentRegister := none, nav := none,
        error := some e, loading := false }
    | .ok tok =>
      if tok = "" then
        { store := store, sentRegister := none, nav := none,
          error := some "No token returned", loading := false }
      else
        { store := storeSet store "token" tok, sentRegister := none,
          nav := some "/", error := none, loading := false }

/-! ## The backend cache and image deduplication

The backend (FastAPI service) is not part of the reviewed source; only its
behaviour is described by the repository documentation. -/

/-- Modelled from the spec: the backend's structured-query cache and
per-user image store. The backend source (FastAPI, Postgres, MinIO) is
absent from the excerpt; the spec states "Results are cached and images
are deduplicated by content hash". `cache` maps a query to its computed
data; `images` maps a content hash to the stored image id. -/
structure Backend where
  cache : List (StructuredRequest × List (String × DataValue))
  images : List (String × Int)
  nextImageId : Int
deriving Repr

/-- Modelled from the spec: serving a structured query. A query present in
the cache is answered from it with `from_cache = true`; otherwise the LLM
oracle `llm` computes the data, which is stored and returned with
`from_cache = false`. -/
def serveStructured (b : Backend) (req : StructuredRequest)
    (llm : StructuredRequest → List (String × DataValue)) :
    Backend × StructuredResponse :=
  match (b.cache.find? (fun e => e.1 = req)).map (fun e => e.2) with
  | some d => (b, { data := d, from_cache := true })
  | none =>
    let d := llm req
    ({ b with cache := (req, d) :: b.cache },
     { data := d, from_cache := false })

/-- Modelled from the spec: storing an uploaded image, deduplicated by
content hash. An upload whose content hash matches an existing entry
reuses the stored image id; otherwise a fresh id is allocated. -/
def storeImage (b : Backend) (hash : String) : Backend × Int :=
  match (b.images.find? (fun e => e.1 = hash)).map (fun e => e.2) with
  | some i => (b, i)
  | none =>
    ({ b with images := (hash, b.nextImageId) :: b.images,
              nextImageId := b.nextImageId + 1 },
     b.nextImageId)

/-- A concrete `MainPage` state used to instantiate the claims: logged in,
one field surviving cleaning and one dropped. -/
def exampleState : MainState :=
  { token := some "tk", prompt := " Who? "
    fields := [{ id := 1, name := " name ", type := FieldType.string },
               { id := 2, name := "", type := FieldType.number }]
    file := none, imageId := some 7, imageUrl := none, result := none
    fromCache := false, loading := false, uploading := false, error := none }

/-- A concrete `MainPage` state whose only field row has a
whitespace-only name, so cleaning leaves none. -/
def exampleEmptyState : MainState :=
  { exampleState with
    fields := [{ id := 1, name := " ", type := FieldType.string }] }

/-! ## Helper lemmas -/

/-- `cleanFields` equals: keep the rows with non-empty trimmed name, then
trim each kept name (types and order preserved). -/
theorem cleanFields_eq (fs : List FieldRow) :
    cleanFields fs =
      (fs.filter (fun f => jsTrim f.name ≠ "")).map
        (fun f => OutputField.mk (jsTrim f.name) f.type) := by
  induction fs with
  | nil => rfl
  | cons f fs ih =>
    simp only [cleanFields, List.map_cons, List.filter_cons, decide_not]
      at ih ⊢
    by_cases h : jsTrim f.name = "" <;> simp [h, ih]

/-- Looking up a key after `storeSet` of that key yields the new value. -/
theorem storeGet_storeSet (store : List (String × String)) (k v : String) :
    storeGet (storeSet store k v) k = some v := by
  simp [storeGet, storeSet, List.find?]

/-- Looking up a key after `storeRemove` of that key yields nothing. -/
theorem storeGet_storeRemove (store : List (String × String)) (k : String) :
    storeGet (storeRemove store k) k = none := by
  simp only [storeGet, storeRemove, Option.map_eq_none']
  rw [List.find?_eq_none]
  intro x hx
  simp only [List.mem_filter] at hx
  simpa using hx.2

/-! ## Claims -/

/-- C1: the API client performs exactly four REST calls. `login` POSTs to
`{backend}/auth/login` with a url-encoded body of username and password and
returns the `access_token` of the parsed response; `register` POSTs to
`{backend}/auth/register` with a JSON body `{username, password,
password_confirm}`; `uploadImage` POSTs to `{backend}/images/upload` with a
Bearer Authorization header and multipart form data containing the file;
`getStructured` POSTs to `{backend}/llm/structured` with a Bearer
Authorization header and the JSON-serialised `StructuredRequest`, returning
the parsed body. No other endpoint is called by the client. -/
theorem c1_four_rest_calls :
    (∀ b u p, requestOf b (ClientCall.login u p) =
      { method := Method.POST, url := b ++ "/auth/login",
        contentType := some "application/x-www-form-urlencoded",
        auth := none,
        body := ReqBody.urlencoded [("username", u), ("password", p)] }) ∧
    (∀ t rest,
      login_extract (Json.obj (("access_token", t) :: rest)) = some t) ∧
    (∀ b u p pc, requestOf b (ClientCall.register u p pc) =
      { method := Method.POST, url := b ++ "/auth/register",
        contentType := some "application/json", auth := none,
        body := ReqBody.jsonBody (Json.obj
          [("username", Json.str u), ("password", Json.str p),
           ("password_confirm", Json.str pc)]) }) ∧
    (∀ b f tok, requestOf b (ClientCall.uploadImage f tok) =
      { method := Method.POST, url := b ++ "/images/upload",
        contentType := none, auth := some ("Bearer " ++ tok),
        body := ReqBody.multipart "file" f }) ∧
    (∀ b body tok, requestOf b (ClientCall.getStructured body tok) =
      { method := Method.POST, url := b ++ "/llm/structured",
        contentType := some "application/json",
        auth := some ("Bearer " ++ tok),
        body := ReqBody.jsonBody (encodeStructuredRequest body) }) ∧
    (∀ res v, res.ok = true → res.body = some v →
      j res = JOutcome.success v) ∧
    (∀ b c, (requestOf b c).url = b ++ "/auth/login" ∨
            (requestOf b c).url = b ++ "/auth/register" ∨
            (requestOf b c).url = b ++ "/images/upload" ∨
            (requestOf b c).url = b ++ "/llm/structured") := by
  refine ⟨fun b u p => rfl, ?_, fun b u p pc => rfl, fun b f tok => rfl,
    fun b body tok => rfl, ?_, ?_⟩
  · intro t rest
    simp [login_extract, getField, lookupStr]
  · intro res v hok hbody
    simp [j, hok, hbody]
  · intro b c
    cases c <;> simp [requestOf, login_request, register_request,
      uploadImage_request, getStructured_request]

/-- Witness for C1 at a concrete ok response: `j` returns the parsed
body. -/
theorem c1_four_rest_calls_witness :
    j { status := 200, ok := true, body := some (Json.num 1) } =
      JOutcome.success (Json.num 1) :=
  c1_four_rest_calls.2.2.2.2.2.1
    { status := 200, ok := true, body := some (Json.num 1) }
    (Json.num 1) rfl rfl

/-- C2: the structured-query contract has exactly this shape: a
`StructuredRequest` is a string prompt, a list of fields whose type is
either `"string"` or `"number"`, and an `image_id` that is a number or
null; a `StructuredResponse` is a data map whose values are strings,
numbers or null, and a boolean `from_cache` flag. -/
theorem c2_contract_shape :
    (∀ f : OutputField,
      f.type = FieldType.string ∨ f.type = FieldType.number) ∧
    (∀ r : StructuredRequest,
      (∃ n : Int, r.image_id = some n) ∨ r.image_id = none) ∧
    (∀ v : DataValue,
      (∃ s, v = DataValue.str s) ∨ (∃ n, v = DataValue.num n) ∨
        v = DataValue.null) ∧
    (∀ resp : StructuredResponse,
      resp.from_cache = true ∨ resp.from_cache = false) := by
  refine ⟨fun f => ?_, fun r => ?_, fun v => ?_, fun resp => ?_⟩
  · cases h : f.type
    · exact Or.inl rfl
    · exact Or.inr rfl
  · cases h : r.image_id
    · exact Or.inr rfl
    · exact Or.inl ⟨_, rfl⟩
  · cases v <;> simp
  · cases h : resp.from_cache
    · exact Or.inr rfl
    · exact Or.inl rfl

/-- C3: the `StructuredRequest` sent by a main-page submission carries
exactly the user's field rows with names trimmed and rows with empty
trimmed names removed (types and order preserved), the trimmed prompt, and
the stored image id; when no field survives cleaning the submission fails
with "Add at least one field" and no request is sent. -/
theorem c3_submit_schema (s : MainState)
    (resp : Except String StructuredResponse) (t : String)
    (htok : s.token = some t) :
    (∀ req, (onSubmit s resp).sent = some req →
      req.fields =
        (s.fields.filter (fun f => jsTrim f.name ≠ "")).map
          (fun f => OutputField.mk (jsTrim f.name) f.type) ∧
      req.prompt = jsTrim s.prompt ∧ req.image_id = s.imageId) ∧
    (s.fields.filter (fun f => jsTrim f.name ≠ "") = [] →
      (onSubmit s resp).state.error = some "Add at least one field" ∧
      (onSubmit s resp).sent = none) := by
  have hclean := cleanFields_eq s.fields
  constructor
  · intro req hreq
    by_cases hcf : cleanFields s.fields = []
    · simp [onSubmit, htok, hcf] at hreq
    · cases resp with
      | ok r =>
        simp [onSubmit, htok, hcf] at hreq
        rw [← hreq]
        exact ⟨hclean, rfl, rfl⟩
      | error e =>
        simp [onSubmit, htok, hcf] at hreq
        rw [← hreq]
        exact ⟨hclean, rfl, rfl⟩
  · intro hfil
    have hcf : cleanFields s.fields = [] := by
      rw [hclean, hfil]
      rfl
    constructor <;> simp [onSubmit, htok, hcf]

/-- Witness for C3 at the whitespace-only state: cleaning leaves no field,
the error is shown and no request is sent. -/
theorem c3_submit_schema_witness :
    (onSubmit exampleEmptyState (Except.error "boom")).state.error =
      some "Add at least one field" ∧
    (onSubmit exampleEmptyState (Except.error "boom")).sent = none :=
  (c3_submit_schema exampleEmptyState (Except.error "boom") "tk" rfl).2
    (by decide)

/-- C4: a successful structured-query response stores the `from_cache`
flag; while a result is displayed the label is `"from cache"` exactly when
the flag is true and `"fresh"` exactly when it is false; with no result
displayed neither label is shown. -/
theorem c4_from_cache_label (s : MainState)
    (resp : Except String StructuredResponse) (t : String)
    (r : StructuredResponse) (htok : s.token = some t)
    (hcf : cleanFields s.fields ≠ []) (hresp : resp = Except.ok r) :
    ((onSubmit s resp).state.fromCache = r.from_cache ∧
      (onSubmit s resp).state.result = some r.data) ∧
    (∀ s' : MainState, s'.result.isSome = true →
      (cacheLabel s' = some "from cache" ↔ s'.fromCache = true) ∧
      (cacheLabel s' = some "fresh" ↔ s'.fromCache = false)) ∧
    (∀ s' : MainState, s'.result = none → cacheLabel s' = none) := by
  subst hresp
  refine ⟨?_, ?_, ?_⟩
  · constructor <;> simp [onSubmit, htok, hcf]
  · intro s' hres
    obtain ⟨d, hd⟩ := Option.isSome_iff_exists.mp hres
    cases hb : s'.fromCache <;> constructor <;>
      simp [cacheLabel, hd, hb]
  · intro s' hres
    simp [cacheLabel, hres]

/-- Witness for C4 at the example state and a concrete cached response. -/
theorem c4_from_cache_label_witness :
    (onSubmit exampleState
      (Except.ok { data := [("name", DataValue.str "Alan")],
                   from_cache := true })).state.fromCache = true ∧
    (onSubmit exampleState
      (Except.ok { data := [("name", DataValue.str "Alan")],
                   from_cache := true })).state.result =
      some [("name", DataValue.str "Alan")] :=
  (c4_from_cache_label exampleState
    (Except.ok { data := [("name", DataValue.str "Alan")],
                 from_cache := true }) "tk"
    { data := [("name", DataValue.str "Alan")], from_cache := true }
    rfl (by decide) rfl).1

/-- C10: the main-page submission is atomic with respect to the displayed
result: on any failure (validation or request error) the final state has no
result, `fromCache` false, `loading` false and a non-null error; `result`
and `fromCache` are set only from a successful response. -/
theorem c10_submit_atomic (s : MainState)
    (resp : Except String StructuredResponse) (t : String)
    (htok : s.token = some t) :
    ((cleanFields s.fields = [] ∨ ∃ e, resp = Except.error e) →
      (onSubmit s resp).state.result = none ∧
      (onSubmit s resp).state.fromCache = false ∧
      (onSubmit s resp).state.loading = false ∧
      (onSubmit s resp).state.error ≠ none) ∧
    (∀ d, (onSubmit s resp).state.result = some d →
      ∃ r, resp = Except.ok r ∧ d = r.data ∧
        (onSubmit s resp).state.fromCache = r.from_cache ∧
        (onSubmit s resp).state.error = none ∧
        (onSubmit s resp).state.loading = false) ∧
    ((onSubmit s resp).state.fromCache = true →
      ∃ r, resp = Except.ok r ∧ r.from_cache = true) := by
  by_cases hcf : cleanFields s.fields = []
  · refine ⟨fun _ => ?_, fun d hd => ?_, fun hb => ?_⟩
    · simp [onSubmit, htok, hcf]
    · simp [onSubmit, htok, hcf] at hd
    · simp [onSubmit, htok, hcf] at hb
  · cases resp with
    | ok r =>
      refine ⟨fun h => ?_, fun d hd => ?_, fun hb => ?_⟩
      · rcases h with h | ⟨e, he⟩
        · exact absurd h hcf
        · exact absurd he (by simp)
      · simp [onSubmit, htok, hcf] at hd
        exact ⟨r, rfl, hd.symm, by simp [onSubmit, htok, hcf]⟩
      · simp [onSubmit, htok, hcf] at hb
        exact ⟨r, rfl, hb⟩
    | error e =>
      refine ⟨fun _ => ?_, fun d hd => ?_, fun hb => ?_⟩
      · simp [onSubmit, htok, hcf]
      · simp [onSubmit, htok, hcf] at hd
      · simp [onSubmit, htok, hcf] at hb

/-- Witness for C10 at the example state and a failing request. -/
theorem c10_submit_atomic_witness :
    (onSubmit exampleState (Except.error "boom")).state.result = none ∧
    (onSubmit exampleState (Except.error "boom")).state.fromCache = false ∧
    (onSubmit exampleState (Except.error "boom")).state.loading = false ∧
    (onSubmit exampleState (Except.error "boom")).state.error ≠ none :=
  (c10_submit_atomic exampleState (Except.error "boom") "tk" rfl).1
    (Or.inr ⟨"boom", rfl⟩)

/-- C5 counterexample: a login call that resolves successfully with the
empty token string hits `if (!token) throw new Error("No token returned")`
— nothing is stored under `"token"` and no navigation to `/` happens,
contradicting the claim that every successful login stores the returned
token and navigates to `/`. -/
theorem c5_counterexample :
    (loginSubmit [] (Except.ok "")).store = [] ∧
    (loginSubmit [] (Except.ok "")).nav = none ∧
    (loginSubmit [] (Except.ok "")).error = some "No token returned" :=
  ⟨rfl, rfl, rfl⟩

/-- C5 (amended): a successful login returning a non-empty token stores it
under the local-storage key `"token"` and navigates to `/` (an empty token
is rejected with "No token returned", storing nothing); on mount with no
stored token the main page navigates to `/login` and renders only the
redirect placeholder; logout removes the key and navigates to `/login`. -/
theorem c5_token_storage (store : List (String × String)) (tok e : String)
    (s : MainState) :
    (tok ≠ "" →
      (loginSubmit store (Except.ok tok)).store =
        storeSet store "token" tok ∧
      storeGet (loginSubmit store (Except.ok tok)).store "token" =
        some tok ∧
      (loginSubmit store (Except.ok tok)).nav = some "/") ∧
    ((loginSubmit store (Except.ok "")).store = store ∧
      (loginSubmit store (Except.ok "")).nav = none ∧
      (loginSubmit store (Except.ok "")).error =
        some "No token returned") ∧
    ((loginSubmit store (Except.error e)).store = store ∧
      (loginSubmit store (Except.error e)).nav = none ∧
      (loginSubmit store (Except.error e)).error = some e) ∧
    (storeGet store "token" = none →
      (mainMount store).1 = none ∧ (mainMount store).2 = some "/login") ∧
    (s.token = none → rendersPlaceholder s = true) ∧
    ((logout store s).1 = storeRemove store "token" ∧
      storeGet (logout store s).1 "token" = none ∧
      (logout store s).2.1.token = none ∧
      (logout store s).2.2 = some "/login") := by
  refine ⟨fun htok => ?_, ?_, ?_, fun hget => ?_, fun hs => ?_, ?_⟩
  · refine ⟨?_, ?_, ?_⟩ <;>
      simp [loginSubmit, htok, storeGet_storeSet]
  · exact ⟨rfl, rfl, rfl⟩
  · exact ⟨rfl, rfl, rfl⟩
  · simp [mainMount, hget]
  · simp [rendersPlaceholder, hs]
  · exact ⟨rfl, storeGet_storeRemove store "token", rfl, rfl⟩

/-- Witness for C5 at a concrete non-empty token. -/
theorem c5_token_storage_witness :
    storeGet (loginSubmit [] (Except.ok "abc")).store "token" =
      some "abc" ∧
    (loginSubmit [] (Except.ok "abc")).nav = some "/" :=
  ⟨((c5_token_storage [] "abc" "e" exampleState).1 (by decide)).2.1,
   ((c5_token_storage [] "abc" "e" exampleState).1 (by decide)).2.2⟩

/-- C6: a repeated identical structured query is served from the cache
(`from_cache = true`, same data as first computed), and uploading an image
whose content hash matches an existing upload reuses the stored image
(same id, backend unchanged). -/
theorem c6_cache_and_dedup (b : Backend) (req : StructuredRequest)
    (llm : StructuredRequest → List (String × DataValue)) (hash : String) :
    ((serveStructured (serveStructured b req llm).1 req llm).2.from_cache =
        true ∧
      (serveStructured (serveStructured b req llm).1 req llm).2.data =
        (serveStructured b req llm).2.data) ∧
    ((storeImage (storeImage b hash).1 hash).2 = (storeImage b hash).2 ∧
      (storeImage (storeImage b hash).1 hash).1 = (storeImage b hash).1) := by
  constructor
  · cases hfind : b.cache.find? (fun e => e.1 = req) with
    | none => simp [serveStructured, hfind, List.find?]
    | some x => simp [serveStructured, hfind]
  · cases hfind : b.images.find? (fun e => e.1 = hash) with
    | none => simp [storeImage, hfind, List.find?]
    | some x => simp [storeImage, hfind]

/-- C7: the field-array operations touch only the targeted row.
`updateField` preserves the length, leaves every row with a different id
unchanged in place, and replaces each matching row by its merge with the
patch; `removeField` removes exactly the rows with the given id, leaving
the others in order (a sublist of the original); `addField` appends exactly
one row with empty name and type `"string"`, leaving the existing rows
unchanged in place. -/
theorem c7_field_ops (fs : List FieldRow) (id now : Nat) (p : FieldPatch) :
    (updateField fs id p).length = fs.length ∧
    (∀ i : Nat, ∀ f : FieldRow, fs[i]? = some f →
      (f.id ≠ id → (updateField fs id p)[i]? = some f) ∧
      (f.id = id → (updateField fs id p)[i]? = some (mergePatch f p))) ∧
    (removeField fs id).Sublist fs ∧
    (∀ f ∈ removeField fs id, f.id ≠ id) ∧
    (∀ f ∈ fs, f.id ≠ id → f ∈ removeField fs id) ∧
    (addField fs now).length = fs.length + 1 ∧
    (∀ i : Nat, i < fs.length → (addField fs now)[i]? = fs[i]?) ∧
    (addField fs now)[fs.length]? =
      some { id := now, name := "", type := FieldType.string } := by
  refine ⟨List.length_map fs _, fun i f hf => ⟨fun hne => ?_, fun heq => ?_⟩,
    List.filter_sublist fs, fun f hf => ?_, fun f hf hne => ?_,
    by simp [addField], fun i hi => ?_, ?_⟩
  · simp [updateField, List.getElem?_map, hf, hne]
  · simp [updateField, List.getElem?_map, hf, heq]
  · have := List.of_mem_filter hf
    simpa using this
  · exact List.mem_filter.mpr ⟨hf, by simpa using hne⟩
  · simp [addField, List.getElem?_append, hi]
  · simp [addField]

/-- Witness for C7 at a concrete two-row list: updating row 2 merges the
patch there and leaves row 1 in place. -/
theorem c7_field_ops_witness :
    (updateField [{ id := 1, name := "a", type := FieldType.string },
                  { id := 2, name := "b", type := FieldType.string }] 2
      { name := some "c" })[0]? =
      some { id := 1, name := "a", type := FieldType.string } ∧
    (updateField [{ id := 1, name := "a", type := FieldType.string },
                  { id := 2, name := "b", type := FieldType.string }] 2
      { name := some "c" })[1]? =
      some { id := 2, name := "c", type := FieldType.string } :=
  ⟨((c7_field_ops [{ id := 1, name := "a", type := FieldType.string },
      { id := 2, name := "b", type := FieldType.string }] 2 9
      { name := some "c" }).2.1 0
      { id := 1, name := "a", type := FieldType.string } rfl).1 (by decide),
   (((c7_field_ops [{ id := 1, name := "a", type := FieldType.string },
      { id := 2, name := "b", type := FieldType.string }] 2 9
      { name := some "c" }).2.1 1
      { id := 2, name := "b", type := FieldType.string } rfl).2 rfl)⟩

/-- C8 counterexample: on an ok-status response whose body does not parse
as JSON, `j` neither returns a parsed body nor throws the described
`Error`: `return res.json()` is outside the `try`/`catch`, so the parse
failure escapes — `j` is not total over HTTP responses and a body-parsing
failure does escape. -/
theorem c8_counterexample :
    j { status := 200, ok := true, body := none } = JOutcome.parseError :=
  rfl

/-- C8 (amended): on an ok response whose body parses, `j` returns the
parsed body; on an ok response whose body does not parse, the `res.json()`
rejection propagates uncaught; on a non-ok response `j` throws an `Error`
whose message is the body's truthy `detail` (the first element's `msg` for
an array detail, falling back to `"HTTP <status>"` when that `msg` is
absent or the array is empty) and exactly `"HTTP <status>"` when the body
is absent, unparsable, or has no truthy `detail`. -/
theorem c8_response_helper (res : HttpResponse) (v d : Json)
    (l : List Json) (s m : String) :
    (res.ok = true → res.body = some v → j res = JOutcome.success v) ∧
    (res.ok = true → res.body = none → j res = JOutcome.parseError) ∧
    (res.ok = false → j res = JOutcome.failure (errMsg res.status res.body)) ∧
    (errMsg res.status none = "HTTP " ++ toString res.status) ∧
    (getField v "detail" = none →
      errMsg res.status (some v) = "HTTP " ++ toString res.status) ∧
    (getField v "detail" = some (Json.str s) → s ≠ "" →
      errMsg res.status (some v) = s) ∧
    (getField v "detail" = some (Json.str "") →
      errMsg res.status (some v) = "HTTP " ++ toString res.status) ∧
    (getField v "detail" = some (Json.arr []) →
      errMsg res.status (some v) = "HTTP " ++ toString res.status) ∧
    (getField v "detail" = some (Json.arr (d :: l)) →
      getField d "msg" = some (Json.str m) →
      errMsg res.status (some v) = m) ∧
    (getField v "detail" = some (Json.arr (d :: l)) →
      getField d "msg" = none →
      errMsg res.status (some v) = "HTTP " ++ toString res.status) := by
  refine ⟨fun hok hbody => by simp [j, hok, hbody],
    fun hok hbody => by simp [j, hok, hbody],
    fun hok => by simp [j, hok],
    rfl, fun hdet => by simp [errMsg, hdet],
    fun hdet hs => by simp [errMsg, hdet, truthy, hs, jsString],
    fun hdet => by simp [errMsg, hdet, truthy],
    fun hdet => by simp [errMsg, hdet, truthy, firstMsg],
    fun hdet hmsg => ?_, fun hdet hmsg => ?_⟩
  · cases d with
    | null => simp [getField] at hmsg
    | obj kvs =>
      simp [errMsg, hdet, truthy, firstMsg, hmsg, jsString]
    | _ => simp [getField] at hmsg
  · cases d <;> simp [errMsg, hdet, truthy, firstMsg, hmsg]

/-- Witness for C8: a concrete non-ok response whose body carries a
FastAPI-style array detail yields the first element's `msg`. -/
theorem c8_response_helper_witness :
    errMsg 422
      (some (Json.obj [("detail",
        Json.arr [Json.obj [("msg", Json.str "field required")]])])) =
      "field required" :=
  (c8_response_helper { status := 422, ok := false, body := none }
    (Json.obj [("detail",
      Json.arr [Json.obj [("msg", Json.str "field required")]])])
    (Json.obj [("msg", Json.str "field required")]) [] "s"
    "field required").2.2.2.2.2.2.2.2.1 rfl rfl

/-- C9: on a register-page submission with differing password and
confirmation, the error "Passwords do not match" is shown, `register` is
never invoked and no navigation happens (on both the dedicated register
pages and the combined login/register page in register mode); any
`register` call that is made carries `password = password_confirm`. -/
theorem c9_register_mismatch (u p pc : String)
    (resp regResp : Except String Unit) (loginResp : Except String String)
    (store : List (String × String)) (mode : Mode) :
    (p ≠ pc →
      registerSubmit u p pc resp =
        { error := some "Passwords do not match", sentRegister := none,
          nav := none, loading := false }) ∧
    (p ≠ pc →
      (loginPageSubmit Mode.register u p pc store regResp loginResp).error =
        some "Passwords do not match" ∧
      (loginPageSubmit Mode.register u p pc store regResp
        loginResp).sentRegister = none ∧
      (loginPageSubmit Mode.register u p pc store regResp loginResp).nav =
        none ∧
      (loginPageSubmit Mode.register u p pc store regResp loginResp).store =
        store) ∧
    (∀ u' p' pc',
      (registerSubmit u p pc resp).sentRegister = some (u', p', pc') →
      p' = pc') ∧
    (∀ u' p' pc',
      (loginPageSubmit mode u p pc store regResp
        loginResp).sentRegister = some (u', p', pc') → p' = pc') := by
  refine ⟨fun hne => by simp [registerSubmit, hne],
    fun hne => by refine ⟨?_, ?_, ?_, ?_⟩ <;> simp [loginPageSubmit, hne],
    fun u' p' pc' hsent => ?_, fun u' p' pc' hsent => ?_⟩
  · by_cases hne : p = pc
    · subst hne
      cases resp with
      | ok _ =>
        simp [registerSubmit] at hsent
        exact hsent.2.1.symm.trans hsent.2.2
      | error e2 =>
        simp [registerSubmit] at hsent
        exact hsent.2.1.symm.trans hsent.2.2
    · simp [registerSubmit, hne] at hsent
  · cases mode with
    | login =>
      cases loginResp with
      | error e2 => simp [loginPageSubmit] at hsent
      | ok tok =>
        by_cases htok : tok = "" <;>
          simp [loginPageSubmit, htok] at hsent
    | register =>
      by_cases hne : p = pc
      · subst hne
        cases regResp with
        | error e2 =>
          simp [loginPageSubmit] at hsent
          exact hsent.2.1.symm.trans hsent.2.2
        | ok _ =>
          cases loginResp with
          | error e2 =>
            simp [loginPageSubmit] at hsent
            exact hsent.2.1.symm.trans hsent.2.2
          | ok tok =>
            by_cases htok : tok = "" <;>
              simp [loginPageSubmit, htok] at hsent <;>
              exact hsent.2.1.symm.trans hsent.2.2
      · simp [loginPageSubmit, hne] at hsent

/-- Witness for C9 at a concrete mismatching pair. -/
theorem c9_register_mismatch_witness :
    registerSubmit "u" "pw1" "pw2" (Except.ok ()) =
      { error := some "Passwords do not match", sentRegister := none,
        nav := none, loading := false } :=
  (c9_register_mismatch "u" "pw1" "pw2" (Except.ok ()) (Except.ok ())
    (Except.ok "t") [] Mode.register).1 (by decide)
